import Mathlib

/-!
Verification of the filtering/aggregation logic of `spacex-dash-app.py`,
a Dash dashboard over a CSV of SpaceX launch records.

The pandas dataframe `spacex_df` is modelled as a `List LaunchRecord`;
the two reactive callbacks `build_pie` (pie chart, driven by the site
dropdown) and `update_scatter` (scatter chart, driven by the site dropdown
and the payload range slider) are modelled as pure functions from the
table and the widget values to a chart specification.  Payload masses are
modelled as rationals (`ℚ`), which captures exactly the ordered-field
reasoning the callbacks perform on them.
-/

/-- One row of `spacex_df` after the startup preprocessing (line 17 casts
the `class` column to int).  `cls` is the `class` column: 1 = success,
0 = failure. -/
structure LaunchRecord where
  flightNumber : Nat
  launchSite : String
  payloadMass : ℚ
  boosterVersionCategory : String
  cls : Nat
deriving DecidableEq, Repr

/-- Line 18: `spacex_df['Outcome'] = spacex_df['class'].map({1: 'Success', 0: 'Failure'})`.
A class value other than 0 or 1 is unmapped and becomes NaN, modelled as
`none`.  (Line 21 additionally makes the column an ordered categorical,
which only affects display order, not the values.) -/
def outcomeLabel (r : LaunchRecord) : Option String :=
  if r.cls = 1 then some "Success" else if r.cls = 0 then some "Failure" else none

/-- The column `spacex_df['Payload Mass (kg)']`. -/
def payloadColumn (df : List LaunchRecord) : List ℚ :=
  df.map (·.payloadMass)

/-- Python `int()` applied to a (non-NaN) numeric value: truncation toward
zero, i.e. floor for nonnegative values and ceiling for negative ones. -/
def pyInt (q : ℚ) : Int :=
  if 0 ≤ q then ⌊q⌋ else ⌈q⌉

/-- Line 27: `min_payload = int(spacex_df['Payload Mass (kg)'].min())`.
On an empty table pandas yields NaN and `int()` raises, so the result is
`none` there. -/
def min_payload (df : List LaunchRecord) : Option Int :=
  ((payloadColumn df).min?).map pyInt

/-- Line 28: `max_payload = int(spacex_df['Payload Mass (kg)'].max())`. -/
def max_payload (df : List LaunchRecord) : Option Int :=
  ((payloadColumn df).max?).map pyInt

/-- Line 69: the range slider starts at `value=[min_payload, max_payload]`. -/
def sliderDefault (df : List LaunchRecord) : Option (Int × Int) :=
  match min_payload df, max_payload df with
  | some lo, some hi => some (lo, hi)
  | _, _ => none

/-- Lines 120-121: `mask = (payload >= low) & (payload <= high)`,
`df_filtered = spacex_df[mask]` — keep the rows whose payload mass lies in
the inclusive interval `[low, high]`. -/
def payloadFilter (low high : ℚ) (df : List LaunchRecord) : List LaunchRecord :=
  df.filter (fun r => decide (low ≤ r.payloadMass) && decide (r.payloadMass ≤ high))

/-- Lines 124-125: `if site_dropdown != 'ALL': df_filtered = df_filtered[df_filtered['Launch Site'] == site_dropdown]`.
The sentinel value `"ALL"` leaves the collection unchanged. -/
def siteFilter (site_dropdown : String) (df : List LaunchRecord) : List LaunchRecord :=
  if site_dropdown ≠ "ALL" then df.filter (fun r => r.launchSite == site_dropdown) else df

/-- The row set `df_filtered` that `update_scatter` hands to `px.scatter`
(lines 117-127): payload-range filter first, then the site filter. -/
def scatterFiltered (site_dropdown : String) (low high : ℚ) (df : List LaunchRecord) :
    List LaunchRecord :=
  siteFilter site_dropdown (payloadFilter low high df)

/-- The row-counting aggregation `px.pie(df, names=...)` performs when no
`values` column is given: one slice per distinct name (in order of first
appearance), sized by the number of rows carrying that name.  The same
counting also underlies `groupby(...).size()` on line 95 (pandas sorts the
group keys; the key order is irrelevant to every counting property below,
so the slices are kept in first-appearance order). -/
def valueCounts (names : List String) : List (String × Nat) :=
  names.dedup.map (fun s => (s, names.count s))

/-- Line 95: `success_counts = spacex_df[spacex_df['class'] == 1].groupby('Launch Site').size().reset_index(name='counts')` —
per-site row counts over the successful records. -/
def success_counts (df : List LaunchRecord) : List (String × Nat) :=
  valueCounts ((df.filter (fun r => r.cls == 1)).map (·.launchSite))

/-- The data content of the pie figure: the slices (name, size) and the
title.  Layout polish (donut hole, centered title, colors) is display-only
and not modelled. -/
structure PieSpec where
  slices : List (String × Nat)
  title : String
deriving DecidableEq, Repr

/-- Lines 92-108: the pie-chart callback.  For the sentinel `"ALL"` it
charts the per-site success counts; for a specific site it charts the
row counts of the `Outcome` column restricted to that site (rows whose
outcome is NaN are dropped by plotly, hence `filterMap`). -/
def build_pie (df : List LaunchRecord) (site_dropdown : String) : PieSpec :=
  if site_dropdown == "ALL" then
    { slices := success_counts df
      title := "Total Successful Launches by Site" }
  else
    { slices := valueCounts ((df.filter (fun r => r.launchSite == site_dropdown)).filterMap outcomeLabel)
      title := "Success vs Failure for " ++ site_dropdown }

/-- One marker of the scatter figure: position `(x, y)`, symbol, and the
hover data of line 131. -/
structure ScatterPoint where
  x : ℚ
  y : Option String
  symbol : String
  flightNumber : Nat
  launchSite : String
deriving DecidableEq, Repr

/-- The data content of the scatter figure. -/
structure ScatterSpec where
  points : List ScatterPoint
  title : String
deriving DecidableEq, Repr

/-- Lines 116-142: the scatter-chart callback.  `payload_range` is the
slider value `[low, high]`; the figure plots payload mass against outcome
for the filtered rows. -/
def update_scatter (df : List LaunchRecord) (site_dropdown : String)
    (payload_range : ℚ × ℚ) : ScatterSpec :=
  { points := (scatterFiltered site_dropdown payload_range.1 payload_range.2 df).map
      (fun r => { x := r.payloadMass
                  y := outcomeLabel r
                  symbol := r.boosterVersionCategory
                  flightNumber := r.flightNumber
                  launchSite := r.launchSite })
    title := "Payload vs. Launch Outcome" }

/-- Lines 7-13: startup data loading.  The file system is modelled as an
optional file content at `dataPath`; an absent file aborts startup with the
`FileNotFoundError` message of line 11 (quotation marks of the original
message elided), before any data is loaded. -/
def loadData (dataPath : String) (file : Option (List LaunchRecord)) :
    Except String (List LaunchRecord) :=
  match file with
  | none => Except.error ("Could not find data file at " ++ dataPath ++
      ". Make sure spacex_launch_dash.csv is in the project folder.")
  | some rows => Except.ok rows

/-- The mutable global state of the process: the single dataframe
`spacex_df` loaded at startup. -/
structure AppState where
  spacex_df : List LaunchRecord
deriving DecidableEq, Repr

/-- `build_pie` as a transformer of the global state: the callback body
(lines 92-108) only reads `spacex_df` — boolean-mask selection and groupby
return fresh frames — so the translated state after the call is the state
before it. -/
def build_pie_callback (st : AppState) (site_dropdown : String) : AppState × PieSpec :=
  (st, build_pie st.spacex_df site_dropdown)

/-- `update_scatter` as a transformer of the global state (lines 116-142);
like `build_pie` it performs no assignment to `spacex_df`. -/
def update_scatter_callback (st : AppState) (site_dropdown : String)
    (payload_range : ℚ × ℚ) : AppState × ScatterSpec :=
  (st, update_scatter st.spacex_df site_dropdown payload_range)

/-- The two figures the dashboard shows for a given table, dropdown value
and slider value: the pie callback receives only the dropdown (lines
88-91), the scatter callback receives dropdown and slider (lines 111-115). -/
def renderDashboard (df : List LaunchRecord) (site_dropdown : String)
    (payload_range : ℚ × ℚ) : PieSpec × ScatterSpec :=
  (build_pie df site_dropdown, update_scatter df site_dropdown payload_range)

/-- Fixture record: a successful launch from CCAFS LC-40. -/
def fixtureSuccess : LaunchRecord := ⟨1, "CCAFS LC-40", 2500, "v1.0", 1⟩

/-- Fixture record: a failed launch from the same site. -/
def fixtureFailure : LaunchRecord := ⟨2, "CCAFS LC-40", 3000, "v1.0", 0⟩

/-- Fixture: two records at the same launch site, one success and one
failure. -/
def dfFixture : List LaunchRecord := [fixtureSuccess, fixtureFailure]

/-- Fixture record whose payload mass `2001/2 = 1000.5` is the maximum of
`dfC10` and is not an integer. -/
def recMaxPayload : LaunchRecord :=
  ⟨2, "VAFB SLC-4E", mkRat 2001 2, "FT", 1⟩

/-- Fixture table whose maximum payload mass is the non-integral
`1000.5` kg (and whose minimum `300.25` kg is non-integral too). -/
def dfC10 : List LaunchRecord :=
  [⟨1, "CCAFS LC-40", mkRat 1201 4, "v1.0", 0⟩, recMaxPayload]

/-! ## Helper lemmas -/

/-- Membership in the row-count aggregation: `(s, n)` is a slice exactly
when `s` occurs among the names and `n` is its number of occurrences. -/
theorem mem_valueCounts {names : List String} {s : String} {n : Nat} :
    (s, n) ∈ valueCounts names ↔ s ∈ names ∧ n = names.count s := by
  simp only [valueCounts, List.mem_map, List.mem_dedup, Prod.mk.injEq]
  constructor
  · rintro ⟨a, ha, rfl, rfl⟩
    exact ⟨ha, rfl⟩
  · rintro ⟨hs, rfl⟩
    exact ⟨s, hs, rfl, rfl⟩

/-- The `Outcome` column holds `Success` exactly on the rows with
`class = 1`. -/
theorem outcomeLabel_eq_success (r : LaunchRecord) :
    outcomeLabel r = some "Success" ↔ r.cls = 1 := by
  unfold outcomeLabel
  by_cases h1 : r.cls = 1
  · simp [h1]
  · by_cases h0 : r.cls = 0 <;> simp [h1, h0]

/-- The `Outcome` column holds `Failure` exactly on the rows with
`class = 0`. -/
theorem outcomeLabel_eq_failure (r : LaunchRecord) :
    outcomeLabel r = some "Failure" ↔ r.cls = 0 := by
  unfold outcomeLabel
  by_cases h1 : r.cls = 1
  · simp [h1]
  · by_cases h0 : r.cls = 0 <;> simp [h1, h0]

/-- Counting `Success` in the (NaN-dropping) `Outcome` column is counting
the rows with `class = 1`. -/
theorem success_label_count (specific : List LaunchRecord) :
    (specific.filterMap outcomeLabel).count "Success"
      = specific.countP (fun r => r.cls == 1) := by
  rw [List.count_eq_countP, List.countP_filterMap]
  refine List.countP_congr (fun r _ => ?_)
  by_cases h1 : r.cls = 1
  · simp [outcomeLabel, h1]
  · by_cases h0 : r.cls = 0 <;> simp [outcomeLabel, h1, h0]

/-- Counting `Failure` in the `Outcome` column is counting the rows with
`class = 0`. -/
theorem failure_label_count (specific : List LaunchRecord) :
    (specific.filterMap outcomeLabel).count "Failure"
      = specific.countP (fun r => r.cls == 0) := by
  rw [List.count_eq_countP, List.countP_filterMap]
  refine List.countP_congr (fun r _ => ?_)
  by_cases h1 : r.cls = 1
  · simp [outcomeLabel, h1]
  · by_cases h0 : r.cls = 0 <;> simp [outcomeLabel, h1, h0]

/-- For a specific site, the slices of `build_pie` are the `Outcome` row
counts of that site. -/
theorem build_pie_slices_of_ne (df : List LaunchRecord) (site_dropdown : String)
    (h : site_dropdown ≠ "ALL") :
    (build_pie df site_dropdown).slices
      = valueCounts ((df.filter (fun r => r.launchSite == site_dropdown)).filterMap outcomeLabel) := by
  simp [build_pie, h]

/-- Characterisation of the `Success` slice of a single-site pie chart. -/
theorem build_pie_success_slice (df : List LaunchRecord) (site_dropdown : String)
    (h : site_dropdown ≠ "ALL") (n : Nat) :
    ("Success", n) ∈ (build_pie df site_dropdown).slices ↔
      (∃ r ∈ df, r.launchSite = site_dropdown ∧ r.cls = 1) ∧
        n = (df.filter (fun r => r.cls == 1 && r.launchSite == site_dropdown)).length := by
  rw [build_pie_slices_of_ne df site_dropdown h, mem_valueCounts, success_label_count,
    List.countP_filter, List.countP_eq_length_filter]
  simp only [List.mem_filterMap, List.mem_filter, outcomeLabel_eq_success, beq_iff_eq]
  constructor
  · rintro ⟨⟨r, ⟨hr, hsite⟩, hcls⟩, rfl⟩
    exact ⟨⟨r, hr, hsite, hcls⟩, rfl⟩
  · rintro ⟨⟨r, hr, hsite, hcls⟩, rfl⟩
    exact ⟨⟨r, ⟨hr, hsite⟩, hcls⟩, rfl⟩

/-- Characterisation of the `Failure` slice of a single-site pie chart. -/
theorem build_pie_failure_slice (df : List LaunchRecord) (site_dropdown : String)
    (h : site_dropdown ≠ "ALL") (n : Nat) :
    ("Failure", n) ∈ (build_pie df site_dropdown).slices ↔
      (∃ r ∈ df, r.launchSite = site_dropdown ∧ r.cls = 0) ∧
        n = (df.filter (fun r => r.cls == 0 && r.launchSite == site_dropdown)).length := by
  rw [build_pie_slices_of_ne df site_dropdown h, mem_valueCounts, failure_label_count,
    List.countP_filter, List.countP_eq_length_filter]
  simp only [List.mem_filterMap, List.mem_filter, outcomeLabel_eq_failure, beq_iff_eq]
  constructor
  · rintro ⟨⟨r, ⟨hr, hsite⟩, hcls⟩, rfl⟩
    exact ⟨⟨r, hr, hsite, hcls⟩, rfl⟩
  · rintro ⟨⟨r, hr, hsite, hcls⟩, rfl⟩
    exact ⟨⟨r, ⟨hr, hsite⟩, hcls⟩, rfl⟩

/-! ## Claim theorems -/

/-- Claim C1: every record in the filtered set handed to the scatter chart
by `update_scatter` has payload mass in the inclusive slider range
`[low, high]`, and conversely every record of the table whose payload mass
lies in the range (and whose site matches when a specific site is
selected) is in that filtered set. -/
theorem scatter_filter_range_correct (site_dropdown : String) (low high : ℚ)
    (df : List LaunchRecord) (r : LaunchRecord) :
    r ∈ scatterFiltered site_dropdown low high df ↔
      r ∈ df ∧ low ≤ r.payloadMass ∧ r.payloadMass ≤ high ∧
        (site_dropdown ≠ "ALL" → r.launchSite = site_dropdown) := by
  unfold scatterFiltered siteFilter payloadFilter
  by_cases h : site_dropdown = "ALL"
  · simp [h, List.mem_filter, and_assoc]
  · simp only [ne_eq, h, not_false_iff, if_true, List.mem_filter,
      Bool.and_eq_true, decide_eq_true_eq, beq_iff_eq]
    tauto

/-- Closed instance of `scatter_filter_range_correct` at concrete values. -/
theorem scatter_filter_range_correct_witness :
    fixtureSuccess ∈ scatterFiltered "CCAFS LC-40" 0 9000 dfFixture ↔
      fixtureSuccess ∈ dfFixture ∧ (0 : ℚ) ≤ fixtureSuccess.payloadMass ∧
        fixtureSuccess.payloadMass ≤ 9000 ∧
        (("CCAFS LC-40" : String) ≠ "ALL" → fixtureSuccess.launchSite = "CCAFS LC-40") :=
  scatter_filter_range_correct "CCAFS LC-40" 0 9000 dfFixture fixtureSuccess

/-- Claim C2: for a specific site name the site filter returns exactly the
subsequence of records whose `Launch Site` equals that name, and the
sentinel `"ALL"` returns the collection unchanged. -/
theorem siteFilter_correct (site_dropdown : String) (df : List LaunchRecord) :
    siteFilter "ALL" df = df ∧
    (site_dropdown ≠ "ALL" →
      (siteFilter site_dropdown df).Sublist df ∧
        ∀ r : LaunchRecord, r ∈ siteFilter site_dropdown df ↔
          r ∈ df ∧ r.launchSite = site_dropdown) := by
  refine ⟨by simp [siteFilter], fun h => ⟨?_, fun r => ?_⟩⟩
  · unfold siteFilter
    rw [if_pos h]
    exact List.filter_sublist df
  · unfold siteFilter
    rw [if_pos h]
    simp [List.mem_filter]

/-- Closed instance of `siteFilter_correct` for a concrete site and table. -/
theorem siteFilter_correct_witness :
    (("CCAFS LC-40" : String) ≠ "ALL") ∧
    (siteFilter "CCAFS LC-40" dfFixture).Sublist dfFixture ∧
    (fixtureSuccess ∈ siteFilter "CCAFS LC-40" dfFixture ↔
      fixtureSuccess ∈ dfFixture ∧ fixtureSuccess.launchSite = "CCAFS LC-40") :=
  ⟨by decide,
   ((siteFilter_correct "CCAFS LC-40" dfFixture).2 (by decide)).1,
   ((siteFilter_correct "CCAFS LC-40" dfFixture).2 (by decide)).2 fixtureSuccess⟩

/-- Claim C3: for the sentinel `"ALL"`, the aggregation on line 95
considers exactly the records with `class = 1`, grouped by `Launch Site`:
`(s, n)` is a group exactly when some successful record has site `s` and
`n` is the number of successful records with that site. -/
theorem success_counts_by_site (df : List LaunchRecord) (s : String) (n : Nat) :
    (s, n) ∈ success_counts df ↔
      (∃ r ∈ df, r.cls = 1 ∧ r.launchSite = s) ∧
        n = (df.filter (fun r => r.launchSite == s && r.cls == 1)).length := by
  unfold success_counts
  rw [mem_valueCounts, List.count_eq_countP, List.countP_map, List.countP_filter,
    List.countP_eq_length_filter]
  simp only [List.mem_map, List.mem_filter, beq_iff_eq, Function.comp]
  constructor
  · rintro ⟨⟨r, ⟨hr, hcls⟩, hsite⟩, rfl⟩
    exact ⟨⟨r, hr, hcls, hsite⟩, rfl⟩
  · rintro ⟨⟨r, hr, hcls, hsite⟩, rfl⟩
    exact ⟨⟨r, ⟨hr, hcls⟩, hsite⟩, rfl⟩

/-- Claim C4: for a specific site the pie chart counts the successes and
the failures among the records of that site; on the two-record fixture
(one success, one failure, same site) it yields Success = 1 and
Failure = 1. -/
theorem build_pie_outcome_correct (df : List LaunchRecord) (site_dropdown : String)
    (n : Nat) (h : site_dropdown ≠ "ALL") :
    (("Success", n) ∈ (build_pie df site_dropdown).slices ↔
       (∃ r ∈ df, r.launchSite = site_dropdown ∧ r.cls = 1) ∧
         n = (df.filter (fun r => r.cls == 1 && r.launchSite == site_dropdown)).length) ∧
    (("Failure", n) ∈ (build_pie df site_dropdown).slices ↔
       (∃ r ∈ df, r.launchSite = site_dropdown ∧ r.cls = 0) ∧
         n = (df.filter (fun r => r.cls == 0 && r.launchSite == site_dropdown)).length) ∧
    (("Success", 1) ∈ (build_pie dfFixture "CCAFS LC-40").slices ∧
     ("Failure", 1) ∈ (build_pie dfFixture "CCAFS LC-40").slices ∧
     (build_pie dfFixture "CCAFS LC-40").slices.length = 2) :=
  ⟨build_pie_success_slice df site_dropdown h n,
   build_pie_failure_slice df site_dropdown h n,
   by decide, by decide, by decide⟩

/-- Closed instance of `build_pie_outcome_correct`: on the fixture the
single-site aggregation yields exactly the two slices Success = 1 and
Failure = 1. -/
theorem build_pie_outcome_correct_witness :
    (("CCAFS LC-40" : String) ≠ "ALL") ∧
    (("Success", 1) ∈ (build_pie dfFixture "CCAFS LC-40").slices ∧
     ("Failure", 1) ∈ (build_pie dfFixture "CCAFS LC-40").slices ∧
     (build_pie dfFixture "CCAFS LC-40").slices.length = 2) :=
  ⟨by decide, (build_pie_outcome_correct dfFixture "CCAFS LC-40" 1 (by decide)).2.2⟩

/-- Claim C5: the per-site success counts of the `"ALL"` aggregation sum
to the total number of successful records of the dataset. -/
theorem success_counts_sum_total (df : List LaunchRecord) :
    ((success_counts df).map Prod.snd).sum = (df.filter (fun r => r.cls == 1)).length := by
  have h := List.sum_map_count_dedup_eq_length
    ((df.filter (fun r => r.cls == 1)).map (·.launchSite))
  simpa [success_counts, valueCounts, List.map_map, Function.comp] using h

/-- Claim C6: empty filter results degrade gracefully — the callbacks
still return a chart specification, over the empty record set, rather than
failing. -/
theorem charts_degrade_gracefully (df : List LaunchRecord) (site_dropdown : String)
    (low high : ℚ) :
    (scatterFiltered site_dropdown low high df = [] →
      (update_scatter df site_dropdown (low, high)).points = []) ∧
    (site_dropdown ≠ "ALL" →
      df.filter (fun r => r.launchSite == site_dropdown) = [] →
        (build_pie df site_dropdown).slices = []) ∧
    (df.filter (fun r => r.cls == 1) = [] → (build_pie df "ALL").slices = []) := by
  refine ⟨fun h => ?_, fun h1 h2 => ?_, fun h => ?_⟩
  · simp [update_scatter, h]
  · rw [build_pie_slices_of_ne df site_dropdown h1, h2]
    rfl
  · simp [build_pie, success_counts, h, valueCounts]

/-- Closed instance of `charts_degrade_gracefully` on an empty table. -/
theorem charts_degrade_gracefully_witness :
    (scatterFiltered "CCAFS LC-40" 0 0 ([] : List LaunchRecord) = [] ∧
     ("CCAFS LC-40" : String) ≠ "ALL" ∧
     List.filter (fun r => r.launchSite == "CCAFS LC-40") ([] : List LaunchRecord) = [] ∧
     List.filter (fun r => r.cls == 1) ([] : List LaunchRecord) = []) ∧
    ((update_scatter [] "CCAFS LC-40" (0, 0)).points = [] ∧
     (build_pie [] "CCAFS LC-40").slices = [] ∧
     (build_pie [] "ALL").slices = []) :=
  ⟨⟨by decide, by decide, by decide, by decide⟩,
   (charts_degrade_gracefully [] "CCAFS LC-40" 0 0).1 (by decide),
   (charts_degrade_gracefully [] "CCAFS LC-40" 0 0).2.1 (by decide) (by decide),
   (charts_degrade_gracefully [] "CCAFS LC-40" 0 0).2.2 (by decide)⟩

/-- Claim C7: an absent CSV file makes startup fail with the descriptive
`FileNotFoundError` message before any data is loaded; loading succeeds
exactly when the file exists. -/
theorem startup_missing_file_fatal (dataPath : String) (rows : List LaunchRecord)
    (file : Option (List LaunchRecord)) :
    loadData dataPath none = Except.error ("Could not find data file at " ++ dataPath ++
      ". Make sure spacex_launch_dash.csv is in the project folder.") ∧
    loadData dataPath (some rows) = Except.ok rows ∧
    ((∃ out, loadData dataPath file = Except.ok out) ↔ file.isSome) := by
  refine ⟨rfl, rfl, ?_⟩
  cases file <;> simp [loadData]

/-- Claim C8: the callbacks leave the global table unchanged — also when
chained — and the derived values are functions of the table alone. -/
theorem spacex_df_immutable (st : AppState) (s1 s2 : String) (pr : ℚ × ℚ) :
    (build_pie_callback st s1).1 = st ∧
    (update_scatter_callback st s2 pr).1 = st ∧
    (update_scatter_callback (build_pie_callback st s1).1 s2 pr).1 = st ∧
    min_payload ((build_pie_callback st s1).1.spacex_df) = min_payload st.spacex_df ∧
    max_payload ((update_scatter_callback st s2 pr).1.spacex_df) = max_payload st.spacex_df ∧
    success_counts ((update_scatter_callback st s2 pr).1.spacex_df)
      = success_counts st.spacex_df ∧
    (build_pie_callback st s1).2 = build_pie st.spacex_df s1 ∧
    (update_scatter_callback st s2 pr).2 = update_scatter st.spacex_df s2 pr :=
  ⟨rfl, rfl, rfl, rfl, rfl, rfl, rfl, rfl⟩

/-- Claim C9: the pie chart depends only on the site selection and the
table, never on the payload range; single-site success counts include
records of every payload mass. -/
theorem pie_ignores_payload_range (df : List LaunchRecord) (site_dropdown : String)
    (pr1 pr2 : ℚ × ℚ) (n : Nat) :
    (renderDashboard df site_dropdown pr1).1 = (renderDashboard df site_dropdown pr2).1 ∧
    (site_dropdown ≠ "ALL" →
      ("Success", n) ∈ ((renderDashboard df site_dropdown pr1).1).slices →
        n = (df.filter (fun r => r.cls == 1 && r.launchSite == site_dropdown)).length) := by
  refine ⟨rfl, fun h hmem => ?_⟩
  exact ((build_pie_success_slice df site_dropdown h n).1 hmem).2

/-- Closed instance of `pie_ignores_payload_range` at two different slider
ranges over the fixture. -/
theorem pie_ignores_payload_range_witness :
    ((("CCAFS LC-40" : String) ≠ "ALL") ∧
      ("Success", 1) ∈ ((renderDashboard dfFixture "CCAFS LC-40" (0, 1)).1).slices) ∧
    ((renderDashboard dfFixture "CCAFS LC-40" (0, 1)).1
        = (renderDashboard dfFixture "CCAFS LC-40" (2000, 9000)).1 ∧
      1 = (dfFixture.filter (fun r => r.cls == 1 && r.launchSite == "CCAFS LC-40")).length) :=
  ⟨⟨by decide, by decide⟩,
   (pie_ignores_payload_range dfFixture "CCAFS LC-40" (0, 1) (2000, 9000) 1).1,
   (pie_ignores_payload_range dfFixture "CCAFS LC-40" (0, 1) (2000, 9000) 1).2
     (by decide) (by decide)⟩

/-- Claim C10: the slider bounds are the truncated min/max payload, so on
`dfC10` — whose maximum payload `1000.5` kg is not an integer — the
default range is `[300, 1000]` and the maximum-payload record is excluded
from the scatter chart even at the default full-range setting. -/
theorem slider_truncation_excludes_max_record :
    sliderDefault dfC10 = some (300, 1000) ∧
    (payloadColumn dfC10).max? = some (mkRat 2001 2) ∧
    ((1000 : ℚ) < mkRat 2001 2) ∧
    recMaxPayload ∈ dfC10 ∧
    recMaxPayload.payloadMass = mkRat 2001 2 ∧
    recMaxPayload ∉ scatterFiltered "ALL" (300 : ℚ) (1000 : ℚ) dfC10 ∧
    (update_scatter dfC10 "ALL" ((300 : ℚ), (1000 : ℚ))).points.length = 1 ∧
    dfC10.length = 2 := by
  decide
